import Mathlib

/-!
Shallow embedding of the git-analyze repository (`github/handler.py`,
`github/ai_analyzer.py`) and verification of the frozen claims about it.

The remote HTTP service and the generative-language service are modelled as
oracles (`respond`, `generate`) passed to the embedded operations; each
operation returns its result together with the list of outbound requests it
issued (and, where a claim needs it, the debug-log lines it emitted), so
that claims about call counts and logging are statable.
-/

namespace GitAnalyze

/-- Modelled from the spec: the module `github/urls.py` is imported by
`github/handler.py` but is not present in the source tree; §6 of the spec
gives the endpoints (`GET /user`, `GET /user/repos`,
`GET /repos/.../commits`).  Only the identity of these constants matters to
the claims, never their textual value. -/
def GITHUB_USER_URL : String := "/user"

/-- Modelled from the spec: see `GITHUB_USER_URL`. -/
def GITHUB_USERS_REPO_URL : String := "/user/repos"

/-- Modelled from the spec: see `GITHUB_USER_URL`. -/
def GITHUB_COMMIT_URL : String := "/repos/{owner}/{repo}/commits"

/-- A JSON-ish value appearing in a response body
(`avatar_url` is a string, `followers` a number, etc.). -/
inductive JValue where
  | str (s : String)
  | num (n : Int)
  | null
deriving DecidableEq, Repr

/-- An HTTP response: a status code and a parsed body
(`response.status`, `await response.json()`). -/
structure HttpResponse (α : Type) where
  status : Nat
  body : α
deriving DecidableEq, Repr

/-- The only exception the handler code ever raises on a non-200 response:
`raise aiohttp.BadContentDispositionParam` (both in
`GithubProfile._fetch_user_data` and `GithubRepo._fetch_user_repos`). -/
inductive FetchError where
  | badContentDispositionParam
deriving DecidableEq, Repr

/-! ## `GithubProfile` (handler.py lines 16-61) -/

/-- The request issued by `GithubProfile._fetch_user_data`:
`session.get(url=GITHUB_USER_URL, headers=self.headers, params={"type": "all"})`. -/
structure ProfileRequest where
  url : String
  headers : List (String × String)
  params : List (String × String)
deriving DecidableEq, Repr

/-- State of a `GithubProfile` instance.  `__init__` defines
`avatar_url`, `followers`, `following`, `name`, `user_name` and
`allowed_attrs` (all `None`); a `login` attribute only comes into existence
if `_set_attributes` sets it (`none` models the attribute being absent). -/
structure GithubProfile where
  token : String
  headers : List (String × String)
  avatar_url : Option JValue
  followers : Option JValue
  following : Option JValue
  name : Option JValue
  user_name : Option JValue
  allowed_attrs : Option JValue
  login : Option JValue
deriving DecidableEq, Repr

/-- `GithubProfile.__init__(self, token)` (handler.py lines 17-28): stores
the token, but builds the `Authorization` header from the module-level
`ACCESS_TOKEN` (read from the environment at import time), not from the
`token` argument. -/
def GithubProfile.init (accessToken token : String) : GithubProfile :=
  { token := token
    headers := [("Authorization", "Bearer " ++ accessToken)]
    avatar_url := none
    followers := none
    following := none
    name := none
    user_name := none
    allowed_attrs := none
    login := none }

/-- The attribute whitelist in `GithubProfile._set_attributes`
(handler.py line 58). -/
def allowedAttrList : List String :=
  ["avatar_url", "followers", "following", "name", "login", "allowed_attrs"]

/-- `setattr(self, key, value)` for the keys that can occur: only keys in
`allowedAttrList` are ever passed here by `_set_attributes`. -/
def GithubProfile.setAttr (p : GithubProfile) (key : String) (v : JValue) :
    GithubProfile :=
  if key = "avatar_url" then { p with avatar_url := some v }
  else if key = "followers" then { p with followers := some v }
  else if key = "following" then { p with following := some v }
  else if key = "name" then { p with name := some v }
  else if key = "login" then { p with login := some v }
  else if key = "allowed_attrs" then { p with allowed_attrs := some v }
  else p

/-- `GithubProfile._set_attributes(self, **kwargs)` (handler.py lines 56-61):
for each key/value of the response body, set the attribute when the key is
whitelisted, else ignore it. -/
def GithubProfile.setAttributes (p : GithubProfile)
    (kwargs : List (String × JValue)) : GithubProfile :=
  kwargs.foldl
    (fun q kv => if kv.1 ∈ allowedAttrList then q.setAttr kv.1 kv.2 else q) p

/-- The request `_fetch_user_data` sends for a given profile state. -/
def GithubProfile.mkRequest (p : GithubProfile) : ProfileRequest :=
  { url := GITHUB_USER_URL, headers := p.headers, params := [("type", "all")] }

/-- `GithubProfile._fetch_user_data` (handler.py lines 38-54): issue one GET;
on status 200 parse the body and pass it to `_set_attributes`; otherwise
raise `aiohttp.BadContentDispositionParam`.  Returns the updated profile (the
Python method mutates `self`) together with the requests issued. -/
def GithubProfile.fetchUserData (p : GithubProfile)
    (respond : ProfileRequest → HttpResponse (List (String × JValue))) :
    Except FetchError GithubProfile × List ProfileRequest :=
  let req := p.mkRequest
  let response := respond req
  if response.status = 200 then
    (Except.ok (p.setAttributes response.body), [req])
  else
    (Except.error FetchError.badContentDispositionParam, [req])

/-- Everything observable about a run of `GithubProfile.create`. -/
structure CreateOutcome where
  result : Except FetchError GithubProfile
  requests : List ProfileRequest
  logs : List String
deriving Repr

/-- `GithubProfile.create(cls, token)` (handler.py lines 30-36):
`ic(token)` writes the raw token value to the debug log, then the instance
is constructed and `_fetch_user_data` runs. -/
def GithubProfile.create (accessToken token : String)
    (respond : ProfileRequest → HttpResponse (List (String × JValue))) :
    CreateOutcome :=
  let user := GithubProfile.init accessToken token
  let fetched := user.fetchUserData respond
  { result := fetched.1, requests := fetched.2, logs := [token] }

/-! ## `GithubRepo` (handler.py lines 65-109) -/

/-- The query parameters a `GithubRepo` stores:
`self.params = {"page": 1, "per_page": 30}` (handler.py lines 72-75). -/
structure RepoParams where
  page : Nat
  per_page : Nat
deriving DecidableEq, Repr

/-- The request issued by `GithubRepo._fetch_user_repos`. -/
structure RepoRequest where
  url : String
  header : List (String × String)
  params : RepoParams
deriving DecidableEq, Repr

/-- A raw repository record of the listing response; the code only ever
reads `repo.get("name")`, so only that key is modelled (`none` when the
record has no `name` field). -/
structure RawRepo where
  name : Option String
deriving DecidableEq, Repr

/-- The single-key dict the listing loop builds: `dict(name=repo.get("name"))`
(handler.py line 100). -/
structure RepoDict where
  name : Option String
deriving DecidableEq, Repr

/-- State of a `GithubRepo` instance. -/
structure GithubRepo where
  token : String
  login : String
  header : List (String × String)
  params : RepoParams
deriving DecidableEq, Repr

/-- `GithubRepo.__init__(self, token, login)` (handler.py lines 66-75): the
`Authorization` header again uses the module-level `ACCESS_TOKEN`, and the
params are hard-coded to page 1, per_page 30. -/
def GithubRepo.init (accessToken token login : String) : GithubRepo :=
  { token := token
    login := login
    header := [("Authorization", "Bearer " ++ accessToken)]
    params := { page := 1, per_page := 30 } }

/-- The `for repo in data` loop of `_fetch_user_repos` (handler.py
lines 97-101): start from an empty list and append
`dict(name=repo.get("name"))` for every record. -/
def buildRepoList (data : List RawRepo) : List RepoDict :=
  data.foldl (fun acc repo => acc ++ [{ name := repo.name }]) []

/-- The request `_fetch_user_repos` sends for a given repo state. -/
def GithubRepo.mkRequest (r : GithubRepo) : RepoRequest :=
  { url := GITHUB_USERS_REPO_URL, header := r.header, params := r.params }

/-- `GithubRepo._fetch_user_repos` (handler.py lines 85-105): issue ONE GET
with the stored params; on status 200 build `repo_list`, log it, and drop it
(the call to `self._set_attributes` is commented out and the method returns
`None`); on any other status raise `aiohttp.BadContentDispositionParam`.
No further page is ever requested. -/
def GithubRepo.fetchUserRepos (r : GithubRepo)
    (respond : RepoRequest → HttpResponse (List RawRepo)) :
    Except FetchError Unit × List RepoRequest :=
  let req := r.mkRequest
  let response := respond req
  if response.status = 200 then
    let repo_list := buildRepoList response.body
    have _ := repo_list
    (Except.ok (), [req])
  else
    (Except.error FetchError.badContentDispositionParam, [req])

/-! ## Python string primitives

Executable models of the Python string operations the source uses
(`str.strip`, `str.split`, `str.join`, `str.lower`), written by structural
recursion over the character list so that concrete instances evaluate. -/

/-- Python `str.strip()`: drop leading and trailing whitespace. -/
def pyStrip (s : String) : String :=
  String.mk
    (((s.data.dropWhile Char.isWhitespace).reverse.dropWhile
        Char.isWhitespace).reverse)

/-- Worker for `pySplit`: accumulate the current piece (reversed) while
scanning. -/
def pySplitAux (sep : Char) : List Char → List Char → List (List Char)
  | [], acc => [acc.reverse]
  | c :: cs, acc =>
      if c = sep then acc.reverse :: pySplitAux sep cs []
      else pySplitAux sep cs (c :: acc)

/-- Python `s.split(sep)` for a single-character separator:
`"".split('/') = [""]`, `"a//b".split('/') = ["a", "", "b"]`. -/
def pySplit (sep : Char) (s : String) : List String :=
  (pySplitAux sep s.data []).map String.mk

/-- Python `sep.join(xs)`. -/
def pyJoin (sep : String) : List String → String
  | [] => ""
  | [x] => x
  | x :: xs => x ++ sep ++ pyJoin sep xs

/-- Python `str.lower()`. -/
def pyLower (s : String) : String :=
  String.mk (s.data.map Char.toLower)

/-! ## `analyze_commit_with_ai` (ai_analyzer.py lines 24-48) -/

/-- One rendered line of the prompt body:
`f"- {msg.split('/')[-1].strip()}"` — the message's last `/`-separated
component, trimmed of surrounding whitespace, behind a bullet. -/
def commitLine (msg : String) : String :=
  "- " ++ pyStrip ((pySplit '/' msg).getLastD "")

/-- `formatted_commits = "\n".join(f"- {msg.split('/')[-1].strip()}" for msg
in commit_messages)` (ai_analyzer.py line 29). -/
def formatCommits (commit_messages : List String) : String :=
  pyJoin "\n" (commit_messages.map commitLine)

/-- The fixed instruction template around the commit list (the f-string of
ai_analyzer.py lines 30-39), up to the interpolation point. -/
def promptHead : String :=
  "\n    As an expert programmer and code reviewer, analyze the following Git commit message.\n    Provide brief, actionable feedback on its clarity, conciseness, and adherence to\n    the conventional commit format (e.g., `<type>: <subject>`).\n    If the message can be improved, suggest a better version.\n\n    Commit Message: \""

/-- The fixed instruction template after the interpolation point. -/
def promptTail : String :=
  "\"\n\n    Your analysis:\n    "

/-- The full prompt dispatched to the generative service. -/
def analyzePrompt (commit_messages : List String) : String :=
  promptHead ++ formatCommits commit_messages ++ promptTail

/-- The string returned by the catch-all `except` branch
(ai_analyzer.py line 48). -/
def fallbackText : String := "Error: Could not get analysis from AI."

/-- `analyze_commit_with_ai(commit_messages)` (ai_analyzer.py lines 24-48).
The external completion service (and the `.text` accessor, which can itself
raise on a malformed response) is the oracle `generate`; a raised exception
is its `Except.error` case.  The function builds the prompt, dispatches it
exactly once, and returns the trimmed response text — or, when anything was
raised, the fixed fallback string.  The second component is the list of
prompts dispatched to the remote service. -/
def analyze_commit_with_ai (generate : String → Except String String)
    (commit_messages : List String) : String × List String :=
  let prompt := analyzePrompt commit_messages
  match generate prompt with
  | Except.ok text => (pyStrip text, [prompt])
  | Except.error _ => (fallbackText, [prompt])

/-! ## Spec-side definitions (for refinement comparisons only) -/

/-- The spec's normalized repository record (spec §3, §4.2). -/
structure RepositoryRef where
  owner : String
  name : String
deriving DecidableEq, Repr

/-- The normalization the spec claims (§4.2): map each raw record to
`RepositoryRef{owner: account.login, name: lower(rawName)}`, dropping
records whose name field is missing.  Stated from the spec's words, to be
compared with `buildRepoList`, which is stated from the source. -/
def specNormalizeRepos (login : String) (data : List RawRepo) :
    List RepositoryRef :=
  data.filterMap (fun r => r.name.map (fun n => { owner := login, name := pyLower n }))

/-! ## Helper lemmas -/

/-- The profile fetch issues exactly its one request, whatever the status. -/
theorem GithubProfile.fetchUserData_requests (p : GithubProfile)
    (respond : ProfileRequest → HttpResponse (List (String × JValue))) :
    (p.fetchUserData respond).2 = [p.mkRequest] := by
  unfold GithubProfile.fetchUserData
  by_cases h : (respond p.mkRequest).status = 200 <;> simp [h]

/-- `create` issues exactly the one profile request. -/
theorem GithubProfile.create_requests (accessToken token : String)
    (respond : ProfileRequest → HttpResponse (List (String × JValue))) :
    (GithubProfile.create accessToken token respond).requests
      = [(GithubProfile.init accessToken token).mkRequest] :=
  GithubProfile.fetchUserData_requests _ _

/-- The repository fetch issues exactly its one request, whatever the
status. -/
theorem GithubRepo.fetchUserRepos_requests (r : GithubRepo)
    (respond : RepoRequest → HttpResponse (List RawRepo)) :
    (r.fetchUserRepos respond).2 = [r.mkRequest] := by
  unfold GithubRepo.fetchUserRepos
  by_cases h : (respond r.mkRequest).status = 200 <;> simp [h]

/-- The repository-listing loop, started from any accumulator. -/
theorem buildRepoList_foldl (data : List RawRepo) (acc : List RepoDict) :
    data.foldl (fun acc repo => acc ++ [{ name := repo.name }]) acc
      = acc ++ data.map (fun r => { name := r.name }) := by
  induction data generalizing acc with
  | nil => simp
  | cons hd tl ih => simp [List.foldl_cons, ih]

/-- `setAttr` with a key other than `"login"` leaves `login` unchanged. -/
theorem GithubProfile.setAttr_login (p : GithubProfile) (key : String)
    (v : JValue) (h : key ≠ "login") : (p.setAttr key v).login = p.login := by
  unfold GithubProfile.setAttr
  split_ifs <;> simp_all

/-- `_set_attributes` with a body that binds no `"login"` key leaves `login`
unchanged. -/
theorem GithubProfile.setAttributes_login (p : GithubProfile)
    (kwargs : List (String × JValue))
    (h : "login" ∉ kwargs.map Prod.fst) :
    (p.setAttributes kwargs).login = p.login := by
  induction kwargs generalizing p with
  | nil => rfl
  | cons kv tl ih =>
    simp only [List.map_cons, List.mem_cons, not_or] at h
    have step : p.setAttributes (kv :: tl)
        = GithubProfile.setAttributes
            (if kv.1 ∈ allowedAttrList then p.setAttr kv.1 kv.2 else p) tl := by
      unfold GithubProfile.setAttributes
      rfl
    rw [step]
    by_cases hm : kv.1 ∈ allowedAttrList
    · simp only [hm, if_pos]
      rw [ih _ h.2, GithubProfile.setAttr_login]
      exact fun hk => h.1 hk.symm
    · simp only [hm, if_neg, not_false_iff]
      exact ih _ h.2

/-! ## Claim theorems -/

/-- Concrete remote for the C1 counterexample: page 1 is full
(30 records), and a second page with more records exists. -/
def fullFirstPage : RepoRequest → HttpResponse (List RawRepo) := fun req =>
  if req.params.page = 1 then ⟨200, List.replicate 30 { name := some "r" }⟩
  else ⟨200, [{ name := some "extra" }]⟩

/-- C1 (counterexample): with a full first page (its length equals
`per_page`) and a non-empty second page available, `_fetch_user_repos`
issues exactly one request, every request it issues is for page 1 (so page 2
is never requested although page 1 was full), and it succeeds returning
`()` — no concatenation of pages is returned at all. -/
theorem fetch_user_repos_full_page_no_next_request :
    (fullFirstPage ((GithubRepo.init "a" "t" "octocat").mkRequest)).body.length
        = (GithubRepo.init "a" "t" "octocat").params.per_page ∧
    ((GithubRepo.init "a" "t" "octocat").fetchUserRepos fullFirstPage).2
        = [(GithubRepo.init "a" "t" "octocat").mkRequest] ∧
    (∀ q ∈ ((GithubRepo.init "a" "t" "octocat").fetchUserRepos fullFirstPage).2,
        q.params.page = 1) ∧
    ((GithubRepo.init "a" "t" "octocat").fetchUserRepos fullFirstPage).1
        = Except.ok () := by
  refine ⟨rfl, rfl, ?_, rfl⟩
  decide

/-- C1 (amended): the repository listing issues exactly one request, for
the page and per_page fixed at construction (page 1, per_page 30),
regardless of the length of the returned page; on a 200 response it returns
`()` — the fetched records are logged and discarded, never returned. -/
theorem fetch_user_repos_single_request (accessToken token login : String)
    (respond : RepoRequest → HttpResponse (List RawRepo))
    (h : (respond (GithubRepo.init accessToken token login).mkRequest).status
        = 200) :
    (GithubRepo.init accessToken token login).params
        = { page := 1, per_page := 30 } ∧
    (GithubRepo.init accessToken token login).fetchUserRepos respond
        = (Except.ok (), [(GithubRepo.init accessToken token login).mkRequest]) := by
  refine ⟨rfl, ?_⟩
  unfold GithubRepo.fetchUserRepos
  simp [h]

/-- Witness for `fetch_user_repos_single_request`. -/
theorem fetch_user_repos_single_request_witness :
    (GithubRepo.init "a" "t" "l").params = { page := 1, per_page := 30 } ∧
    (GithubRepo.init "a" "t" "l").fetchUserRepos (fun _ => ⟨200, []⟩)
        = (Except.ok (), [(GithubRepo.init "a" "t" "l").mkRequest]) :=
  fetch_user_repos_single_request "a" "t" "l" (fun _ => ⟨200, []⟩) rfl

/-- C2 (counterexample): on the empty batch, `analyze_commit_with_ai`
issues one remote call (not zero) and returns the service's text — there is
no `NoCommitsError` fast-fail. -/
theorem analyze_empty_batch_issues_call :
    (analyze_commit_with_ai (fun _ => Except.ok "fine") []).2.length = 1 ∧
    (analyze_commit_with_ai (fun _ => Except.ok "fine") []).1 = "fine" :=
  ⟨rfl, rfl⟩

/-- C2 (amended): every batch, the empty one included, leads to exactly one
remote dispatch of the constructed prompt; the empty batch merely renders an
empty commit section. -/
theorem analyze_always_one_dispatch (generate : String → Except String String)
    (msgs : List String) :
    (analyze_commit_with_ai generate msgs).2 = [analyzePrompt msgs] ∧
    formatCommits [] = "" := by
  refine ⟨?_, rfl⟩
  cases h : generate (analyzePrompt msgs) <;> simp [analyze_commit_with_ai, h]

/-- C3 (counterexample): a server-error failure from the analysis service is
dispatched exactly once (never retried) and is converted into the fixed
non-error return string — no typed `AIServiceError` surfaces. -/
theorem analyze_error_no_retry_fallback_string :
    (analyze_commit_with_ai (fun _ => Except.error "503 Service Unavailable")
        ["feat: x"]).1 = fallbackText ∧
    (analyze_commit_with_ai (fun _ => Except.error "503 Service Unavailable")
        ["feat: x"]).2.length = 1 :=
  ⟨rfl, rfl⟩

/-- C3 (amended): every dispatch failure, of any kind, is caught on the
first attempt with no retry and converted into the fixed return string
`fallbackText`; exactly one call is issued. -/
theorem analyze_failure_returns_fallback
    (generate : String → Except String String) (msgs : List String)
    (e : String) (h : generate (analyzePrompt msgs) = Except.error e) :
    analyze_commit_with_ai generate msgs
      = (fallbackText, [analyzePrompt msgs]) := by
  simp [analyze_commit_with_ai, h]

/-- Witness for `analyze_failure_returns_fallback`. -/
theorem analyze_failure_returns_fallback_witness :
    analyze_commit_with_ai (fun _ => Except.error "429") ["feat: x"]
      = (fallbackText, [analyzePrompt ["feat: x"]]) :=
  analyze_failure_returns_fallback (fun _ => Except.error "429") ["feat: x"]
    "429" rfl

/-- A repository-listing state whose stored per_page exceeds the bound 30
(in the source, `self.params` is plain mutable instance state). -/
def oversizedRepoState : GithubRepo :=
  { token := "t"
    login := "l"
    header := [("Authorization", "Bearer a")]
    params := { page := 1, per_page := 31 } }

/-- C4 (counterexample): with per_page = 31 > 30 in the state, the listing
still issues its outbound request (not zero requests) and succeeds — no
`ValidationError` exists on any path of the code. -/
theorem fetch_user_repos_no_per_page_validation :
    30 < oversizedRepoState.params.per_page ∧
    (oversizedRepoState.fetchUserRepos (fun _ => ⟨200, []⟩)).2.length = 1 ∧
    (oversizedRepoState.fetchUserRepos (fun _ => ⟨200, []⟩)).1
        = Except.ok () :=
  ⟨by decide, rfl, rfl⟩

/-- C4 (amended): per_page is not caller-suppliable — the constructor
hard-codes it to 30 — and the listing performs no validation: it issues
exactly one request whatever per_page its state holds. -/
theorem per_page_hardcoded_no_validation :
    (∀ accessToken token login : String,
      (GithubRepo.init accessToken token login).params.per_page = 30) ∧
    (∀ (r : GithubRepo) (respond : RepoRequest → HttpResponse (List RawRepo)),
      (r.fetchUserRepos respond).2.length = 1) := by
  refine ⟨fun _ _ _ => rfl, fun r respond => ?_⟩
  rw [GithubRepo.fetchUserRepos_requests]
  rfl

/-- C5 (counterexample): on the records `{name: "MyRepo"}` and `{}` the loop
keeps both records verbatim — the record with no name field is kept as
`{name: None}` rather than dropped, the name is not lower-cased, and no
owner is attached — diverging from the spec's normalization
`specNormalizeRepos`. -/
theorem build_repo_list_not_normalized :
    buildRepoList [{ name := some "MyRepo" }, { name := none }]
        = [{ name := some "MyRepo" }, { name := none }] ∧
    (buildRepoList [{ name := some "MyRepo" }, { name := none }]).length ≠
      (specNormalizeRepos "octocat"
        [{ name := some "MyRepo" }, { name := none }]).length ∧
    (buildRepoList [{ name := some "MyRepo" }]).map RepoDict.name ≠
      (specNormalizeRepos "octocat" [{ name := some "MyRepo" }]).map
        (fun x => some x.name) := by
  refine ⟨rfl, by decide, by decide⟩

/-- C5 (amended): each raw record is mapped to a single-field dict carrying
the raw name verbatim (`None` when the key is missing — such records are
kept, not dropped); no lower-casing and no owner; nothing is ever skipped,
so the output length equals the input length. -/
theorem build_repo_list_verbatim (data : List RawRepo) :
    buildRepoList data = data.map (fun r => { name := r.name }) ∧
    (buildRepoList data).length = data.length := by
  have h : buildRepoList data = data.map (fun r => { name := r.name }) := by
    unfold buildRepoList
    simpa using buildRepoList_foldl data []
  exact ⟨h, by rw [h]; simp⟩

/-- C6: the prompt embeds, between the fixed template parts, one bulleted
line per record in input order, each line being the record's message with
any path-like prefix up to the last `/` stripped and surrounding whitespace
trimmed; for the batch `["feat: add login", "fix: typo"]` the prompt
contains exactly those two bulleted lines, adjacent and in that order. -/
theorem prompt_one_bulleted_line_per_record :
    (∀ msgs : List String,
      analyzePrompt msgs
        = promptHead ++ pyJoin "\n" (msgs.map commitLine) ++ promptTail) ∧
    commitLine "feat: add login" = "- feat: add login" ∧
    commitLine "fix: typo" = "- fix: typo" ∧
    commitLine "  src/app/feat: add login  " = "- feat: add login" ∧
    formatCommits ["feat: add login", "fix: typo"]
        = "- feat: add login" ++ "\n" ++ "- fix: typo" ∧
    (∃ p q, analyzePrompt ["feat: add login", "fix: typo"]
        = p ++ ("- feat: add login" ++ "\n" ++ "- fix: typo") ++ q) := by
  have hfmt : formatCommits ["feat: add login", "fix: typo"]
      = "- feat: add login" ++ "\n" ++ "- fix: typo" := by decide
  refine ⟨fun msgs => rfl, by decide, by decide, by decide, hfmt,
    promptHead, promptTail, ?_⟩
  rw [← hfmt]
  rfl

/-- C7 (counterexample): a 200 profile response whose body has no `login`
key makes `create` succeed with a profile whose login attribute is unset —
no `AuthError("missing login field")` is raised. -/
theorem create_missing_login_no_error :
    ((GithubProfile.create "a" "t"
        (fun _ => ⟨200, [("name", JValue.str "The Octocat")]⟩)).result.toOption.map
      GithubProfile.login) = some none :=
  rfl

/-- C7 (amended): on a success response whose body binds no `login` key,
`create` returns the profile produced by `_set_attributes` without raising,
and that profile's login attribute remains unset. -/
theorem create_missing_login_silent (accessToken token : String)
    (respond : ProfileRequest → HttpResponse (List (String × JValue)))
    (h200 : (respond (GithubProfile.init accessToken token).mkRequest).status
        = 200)
    (hkeys : "login" ∉ ((respond
        (GithubProfile.init accessToken token).mkRequest).body.map Prod.fst)) :
    (GithubProfile.create accessToken token respond).result
        = Except.ok ((GithubProfile.init accessToken token).setAttributes
            (respond (GithubProfile.init accessToken token).mkRequest).body) ∧
    ((GithubProfile.init accessToken token).setAttributes
        (respond (GithubProfile.init accessToken token).mkRequest).body).login
        = none := by
  constructor
  · unfold GithubProfile.create GithubProfile.fetchUserData
    simp [h200]
  · rw [GithubProfile.setAttributes_login _ _ hkeys]
    rfl

/-- Witness for `create_missing_login_silent`. -/
theorem create_missing_login_silent_witness :
    (GithubProfile.create "a" "t"
        (fun _ => ⟨200, [("name", JValue.str "x")]⟩)).result
        = Except.ok ((GithubProfile.init "a" "t").setAttributes
            [("name", JValue.str "x")]) ∧
    ((GithubProfile.init "a" "t").setAttributes
        [("name", JValue.str "x")]).login = none :=
  create_missing_login_silent "a" "t"
    (fun _ => ⟨200, [("name", JValue.str "x")]⟩) rfl (by decide)

/-- C8: evaluating `GithubProfile.create` at the failing input — token
`"secret123"` — shows the raw credential written to the debug log
(`ic(token)` in handler.py line 33), contradicting the never-logged
invariant. -/
theorem create_logs_raw_token :
    "secret123" ∈ (GithubProfile.create "a" "secret123"
      (fun _ => ⟨200, []⟩)).logs := by
  simp [GithubProfile.create]

/-- C9: the analysis result is always a plain returned text, never a raised
error: on any available response text the return value is that text trimmed
of leading and trailing whitespace (an empty or blank response yields the
empty report text), and on a malformed response or failed call the return
value is still a plain (fallback) text. -/
theorem analysis_text_trimmed_never_error
    (generate : String → Except String String) (msgs : List String) :
    (∀ t, generate (analyzePrompt msgs) = Except.ok t →
      analyze_commit_with_ai generate msgs
        = (pyStrip t, [analyzePrompt msgs])) ∧
    (∀ e, generate (analyzePrompt msgs) = Except.error e →
      analyze_commit_with_ai generate msgs
        = (fallbackText, [analyzePrompt msgs])) := by
  constructor
  · intro t h
    simp [analyze_commit_with_ai, h]
  · intro e h
    simp [analyze_commit_with_ai, h]

/-- Witness for `analysis_text_trimmed_never_error`: a blank response is
trimmed to the empty report text, and a failure still yields a plain
return. -/
theorem analysis_text_trimmed_never_error_witness :
    analyze_commit_with_ai (fun _ => Except.ok "  feedback  ") ["m"]
        = ("feedback", [analyzePrompt ["m"]]) ∧
    analyze_commit_with_ai (fun _ => Except.error "boom") ["m"]
        = (fallbackText, [analyzePrompt ["m"]]) := by
  constructor
  · have h := (analysis_text_trimmed_never_error
      (fun _ => Except.ok "  feedback  ") ["m"]).1 "  feedback  " rfl
    rw [show pyStrip "  feedback  " = "feedback" from by decide] at h
    exact h
  · exact (analysis_text_trimmed_never_error
      (fun _ => Except.error "boom") ["m"]).2 "boom" rfl

/-- C10: the outbound requests of `GithubProfile` and `GithubRepo` are
identical for any two token arguments: the Authorization header is built
from the module-level `ACCESS_TOKEN`, so the constructor's token argument
has no effect on any request sent. -/
theorem requests_independent_of_token_argument
    (accessToken t1 t2 login : String)
    (respondP : ProfileRequest → HttpResponse (List (String × JValue)))
    (respondR : RepoRequest → HttpResponse (List RawRepo)) :
    (GithubProfile.create accessToken t1 respondP).requests
        = (GithubProfile.create accessToken t2 respondP).requests ∧
    ((GithubRepo.init accessToken t1 login).fetchUserRepos respondR).2
        = ((GithubRepo.init accessToken t2 login).fetchUserRepos respondR).2 ∧
    (GithubProfile.init accessToken t1).headers
        = [("Authorization", "Bearer " ++ accessToken)] ∧
    (GithubRepo.init accessToken t1 login).header
        = [("Authorization", "Bearer " ++ accessToken)] := by
  refine ⟨?_, ?_, rfl, rfl⟩
  · rw [GithubProfile.create_requests, GithubProfile.create_requests]
    rfl
  · rw [GithubRepo.fetchUserRepos_requests, GithubRepo.fetchUserRepos_requests]
    rfl

end GitAnalyze
